import Mathlib

/-!
# Verification of the `AvatarHashMap` avatar registry

Shallow embedding of `libraries/avatars/src/AvatarHashMap.cpp` (High
Fidelity): an identity-keyed registry of avatar records mutated by four
packet handlers (bulk data, identity, billboard/appearance, kill) plus a
self-identity tracker updated on session-UUID change.

Modelling conventions:
* `QUuid` is modelled as `Nat` (a 128-bit value; the null `QUuid` is `0`).
* Raw packet bytes are modelled as `List Nat`; `QUuid::fromRfc4122` reads
  16 bytes, combined big-endian by `uuidFromBytes`.
* `QHash<QUuid, AvatarSharedPointer>` is modelled as an association list
  `List (UUID × AvatarData)` with `QHash` semantics: `insert` replaces the
  entry for an existing key and otherwise appends, `value` returns the
  entry if present, `remove` deletes the entry for a key.
* `float`/`glm::vec3` coordinates are modelled as rationals.  The test
  `glm::distance(a, b) < range` (a nonnegative square root compared to
  `range`) is embedded square-root-free as `0 < range ∧ distSq a b <
  range * range`, which is proved equivalent to the real-valued
  `Real.sqrt (distSq a b) < range` in the range-query theorem.
* The setters `AvatarData::setFaceModelURL`, `setSkeletonModelURL`,
  `setAttachmentData`, `setDisplayName` and `setBillboard` have observable
  downstream effects in the full program; each invocation is recorded in a
  `writeLog` ghost field so that the difference-gated-write contract ("a
  field is written only when the incoming value differs") is stated about
  setter invocations, not only about final field values.
-/

abbrev UUID := Nat

abbrev Conn := Nat

abbrev URL := String

abbrev Attachment := String

abbrev Vec3 := ℚ × ℚ × ℚ

/-- One avatar record (`AvatarData`).  `bulkPayload` stands for the
avatar-specific variable-length fields parsed from a bulk-data sub-record
(position, orientation, ...), kept opaque because
`AvatarData::parseDataFromBuffer` is outside the excerpted core. -/
structure AvatarData where
  sessionUUID : UUID
  owningAvatarMixer : Option Conn
  position : Vec3
  faceModelURL : URL
  skeletonModelURL : URL
  attachmentData : List Attachment
  displayName : String
  billboard : List Nat
  bulkPayload : List Nat
  deriving DecidableEq, Repr

/-- A setter invocation on an avatar record, recorded for the
difference-gated-write contract. -/
inductive WriteEvent where
  | setFaceModelURL (sessionUUID : UUID) (url : URL)
  | setSkeletonModelURL (sessionUUID : UUID) (url : URL)
  | setAttachmentData (sessionUUID : UUID) (attachments : List Attachment)
  | setDisplayName (sessionUUID : UUID) (name : String)
  | setBillboard (sessionUUID : UUID) (blob : List Nat)
  deriving DecidableEq, Repr

/-- The state of an `AvatarHashMap` object: the registry `_avatarHash`,
the self-identity tracker `_lastOwnerSessionUUID`, and the ghost log of
setter invocations. -/
structure AvatarHashMap where
  avatarHash : List (UUID × AvatarData)
  lastOwnerSessionUUID : UUID
  writeLog : List WriteEvent
  deriving DecidableEq, Repr

/-- Fresh state: empty registry, null previous-self identifier. -/
def initState : AvatarHashMap :=
  { avatarHash := [], lastOwnerSessionUUID := 0, writeLog := [] }

/-- `QHash::value k`: the record stored under `k`, if any. -/
def hashValue (h : List (UUID × AvatarData)) (k : UUID) : Option AvatarData :=
  (h.find? (fun kv => decide (kv.1 = k))).map (fun kv => kv.2)

/-- `QHash::insert k v`: replace the entry for `k` if present, else append. -/
def hashInsert (h : List (UUID × AvatarData)) (k : UUID) (v : AvatarData) :
    List (UUID × AvatarData) :=
  match h with
  | [] => [(k, v)]
  | kv :: rest =>
    if kv.1 = k then (k, v) :: rest else kv :: hashInsert rest k v

/-- `QHash::remove k`: delete every entry stored under `k`. -/
def hashRemove (h : List (UUID × AvatarData)) (k : UUID) :
    List (UUID × AvatarData) :=
  h.filter (fun kv => decide (kv.1 ≠ k))

/-- `QUuid::fromRfc4122`: combine 16 bytes big-endian into one value. -/
def uuidFromBytes (bs : List Nat) : UUID :=
  bs.foldl (fun acc b => acc * 256 + b) 0

/-- `AvatarHashMap::newSharedAvatar`: a default-constructed `AvatarData`. -/
def newSharedAvatar : AvatarData :=
  { sessionUUID := 0
    owningAvatarMixer := none
    position := (0, 0, 0)
    faceModelURL := ""
    skeletonModelURL := ""
    attachmentData := []
    displayName := ""
    billboard := []
    bulkPayload := [] }

/-- `AvatarHashMap::addAvatar`: construct a fresh record, tag it with the
session id and the owning mixer, insert it, return it. -/
def addAvatar (sessionUUID : UUID) (mixer : Conn) (st : AvatarHashMap) :
    AvatarData × AvatarHashMap :=
  let avatar := { newSharedAvatar with
                    sessionUUID := sessionUUID
                    owningAvatarMixer := some mixer }
  (avatar, { st with avatarHash := hashInsert st.avatarHash sessionUUID avatar })

/-- The lookup-or-create pattern shared verbatim by the bulk-data,
identity and billboard handlers:
`value(sessionUUID); if (!avatar) avatar = addAvatar(...)`. -/
def createIfAbsent (sessionUUID : UUID) (mixer : Conn) (st : AvatarHashMap) :
    AvatarData × AvatarHashMap :=
  match hashValue st.avatarHash sessionUUID with
  | some avatar => (avatar, st)
  | none => addAvatar sessionUUID mixer st

/-- Squared straight-line 3D distance between two positions. -/
def distSq (a b : Vec3) : ℚ :=
  (a.1 - b.1) ^ 2 + (a.2.1 - b.2.1) ^ 2 + (a.2.2 - b.2.2) ^ 2

/-- `AvatarHashMap::isAvatarInRange`: scan all records, return true if
some record's position is at distance strictly less than `range`.  The
source compares `glm::distance(avatarPosition, position) < range`; since
the distance is a nonnegative square root this is embedded square-root
free as `0 < range ∧ distSq _ _ < range * range` (proved equivalent in
the range-query theorem below). -/
def isAvatarInRange (st : AvatarHashMap) (position : Vec3) (range : ℚ) : Bool :=
  st.avatarHash.any
    (fun kv => decide (0 < range ∧ distSq kv.2.position position < range * range))

/-- `AvatarHashMap::removeAvatar`: delete the record, no-op if absent. -/
def removeAvatar (sessionUUID : UUID) (st : AvatarHashMap) : AvatarHashMap :=
  { st with avatarHash := hashRemove st.avatarHash sessionUUID }

/-- `AvatarHashMap::processKillAvatar`: read the first 16 payload bytes as
the session id and remove that avatar. -/
def processKillAvatar (_node : Conn) (bytes : List Nat) (st : AvatarHashMap) :
    AvatarHashMap :=
  removeAvatar (uuidFromBytes (bytes.take 16)) st

/-- `AvatarHashMap::sessionUUIDChanged`: remember the superseded own id. -/
def sessionUUIDChanged (_newUUID oldUUID : UUID) (st : AvatarHashMap) :
    AvatarHashMap :=
  { st with lastOwnerSessionUUID := oldUUID }

/-- One decoded tuple of an identity packet. -/
structure IdentityTuple where
  sessionUUID : UUID
  faceModelURL : URL
  skeletonModelURL : URL
  attachmentData : List Attachment
  displayName : String
  deriving DecidableEq, Repr

/-- Body of the identity handler's per-tuple loop: look up or create the
record, then apply each of the four difference-gated setters. -/
def applyIdentityTuple (node : Conn) (t : IdentityTuple) (st : AvatarHashMap) :
    AvatarHashMap :=
  let p := createIfAbsent t.sessionUUID node st
  let a0 := p.1
  let st1 := p.2
  let q1 := if a0.faceModelURL ≠ t.faceModelURL then
      ({ a0 with faceModelURL := t.faceModelURL },
        [WriteEvent.setFaceModelURL t.sessionUUID t.faceModelURL])
    else (a0, [])
  let q2 := if q1.1.skeletonModelURL ≠ t.skeletonModelURL then
      ({ q1.1 with skeletonModelURL := t.skeletonModelURL },
        q1.2 ++ [WriteEvent.setSkeletonModelURL t.sessionUUID t.skeletonModelURL])
    else q1
  let q3 := if q2.1.attachmentData ≠ t.attachmentData then
      ({ q2.1 with attachmentData := t.attachmentData },
        q2.2 ++ [WriteEvent.setAttachmentData t.sessionUUID t.attachmentData])
    else q2
  let q4 := if q3.1.displayName ≠ t.displayName then
      ({ q3.1 with displayName := t.displayName },
        q3.2 ++ [WriteEvent.setDisplayName t.sessionUUID t.displayName])
    else q3
  { st1 with
      avatarHash := hashInsert st1.avatarHash t.sessionUUID q4.1
      writeLog := st1.writeLog ++ q4.2 }

/-- `AvatarHashMap::processAvatarIdentityPacket`: apply each decoded tuple
in order until the stream is exhausted. -/
def processAvatarIdentityPacket (node : Conn) (tuples : List IdentityTuple)
    (st : AvatarHashMap) : AvatarHashMap :=
  tuples.foldl (fun s t => applyIdentityTuple node t s) st

/-- `AvatarHashMap::processAvatarBillboardPacket`: first 16 bytes are the
session id, all remaining bytes the opaque billboard blob; look up or
create the record, then difference-gated `setBillboard`. -/
def processAvatarBillboardPacket (node : Conn) (bytes : List Nat)
    (st : AvatarHashMap) : AvatarHashMap :=
  let sessionUUID := uuidFromBytes (bytes.take 16)
  let billboard := bytes.drop 16
  let p := createIfAbsent sessionUUID node st
  let avatar := p.1
  let st1 := p.2
  if avatar.billboard ≠ billboard then
    { st1 with
        avatarHash := hashInsert st1.avatarHash sessionUUID
          { avatar with billboard := billboard }
        writeLog := st1.writeLog ++ [WriteEvent.setBillboard sessionUUID billboard] }
  else st1

/-- Modelled from the spec: `AvatarData::parseDataFromBuffer` is outside
the excerpted core; per the spec the sub-record body is variable-length
and self-describing, and fewer bytes remaining than the sub-record
declares is a fatal parse condition.  Embedded as: first byte declares
the body length `n`, followed by `n` body bytes; returns the number of
bytes consumed and the body, or `none` when fewer than the declared
bytes remain. -/
def parseDataFromBuffer (buf : List Nat) : Option (Nat × List Nat) :=
  match buf with
  | [] => none
  | n :: rest => if n ≤ rest.length then some (1 + n, rest.take n) else none

/-- Body of the bulk-data handler's per-sub-record step: skip (discard into
a dummy record) when the embedded id equals the tracked previous self,
otherwise look up or create the record and store the parsed fields. -/
def processOneSub (node : Conn) (sessionUUID : UUID) (body : List Nat)
    (st : AvatarHashMap) : AvatarHashMap :=
  if sessionUUID = st.lastOwnerSessionUUID then st
  else
    let p := createIfAbsent sessionUUID node st
    { p.2 with
        avatarHash := hashInsert p.2.avatarHash sessionUUID
          { p.1 with bulkPayload := body } }

/-- `parseDataFromBuffer` consumes at least one byte. -/
theorem parseDataFromBuffer_pos {buf : List Nat} {p : Nat × List Nat}
    (h : parseDataFromBuffer buf = some p) : 0 < p.1 := by
  match buf with
  | [] => simp [parseDataFromBuffer] at h
  | n :: rest =>
    simp only [parseDataFromBuffer] at h
    split at h
    · cases h; simp
    · cases h

/-- `AvatarHashMap::processAvatarDataPacket`: repeatedly read a 16-byte
session id and one variable-length sub-record until the payload is
exhausted; a payload too short for the next id or for the declared body
(malformed trailing data, modelled from the spec) aborts the remainder of
the packet. -/
def processAvatarDataPacket (node : Conn) (bytes : List Nat)
    (st : AvatarHashMap) : AvatarHashMap :=
  if bytes.isEmpty then st
  else if h16 : 16 ≤ bytes.length then
    match hp : parseDataFromBuffer (bytes.drop 16) with
    | some (bytesRead, body) =>
      processAvatarDataPacket node ((bytes.drop 16).drop bytesRead)
        (processOneSub node (uuidFromBytes (bytes.take 16)) body st)
    | none => st
  else st
termination_by bytes.length
decreasing_by
  have hpos : 0 < bytesRead := parseDataFromBuffer_pos hp
  simp only [List.length_drop]
  omega

/-! ## Registry lemmas -/

theorem hashValue_nil (k : UUID) : hashValue [] k = none := rfl

theorem hashValue_cons (kv : UUID × AvatarData) (rest : List (UUID × AvatarData))
    (k : UUID) :
    hashValue (kv :: rest) k = if kv.1 = k then some kv.2 else hashValue rest k := by
  simp only [hashValue, List.find?_cons]
  split
  · next h => simp_all
  · next h =>
    have : ¬ kv.1 = k := by simpa using h
    simp [this]

theorem hashValue_insert_self (h : List (UUID × AvatarData)) (k : UUID)
    (v : AvatarData) : hashValue (hashInsert h k v) k = some v := by
  induction h with
  | nil => simp [hashInsert, hashValue_cons]
  | cons kv rest ih =>
    simp only [hashInsert]
    split
    · simp [hashValue_cons]
    · next hne => simp [hashValue_cons, hne, ih]

theorem hashValue_insert_ne (h : List (UUID × AvatarData)) (k k' : UUID)
    (v : AvatarData) (hne : k' ≠ k) :
    hashValue (hashInsert h k v) k' = hashValue h k' := by
  induction h with
  | nil => simp [hashInsert, hashValue_cons, hashValue_nil, Ne.symm hne]
  | cons kv rest ih =>
    simp only [hashInsert]
    split
    · next heq =>
      simp [hashValue_cons, Ne.symm hne, heq]
    · simp [hashValue_cons, ih]

theorem hashInsert_self_eq (h : List (UUID × AvatarData)) (k : UUID)
    (v : AvatarData) (hv : hashValue h k = some v) : hashInsert h k v = h := by
  induction h with
  | nil => simp [hashValue_nil] at hv
  | cons kv rest ih =>
    rw [hashValue_cons] at hv
    simp only [hashInsert]
    split
    · next heq =>
      rw [if_pos heq] at hv
      cases hv
      rw [← heq]
    · next hne =>
      rw [if_neg hne] at hv
      rw [ih hv]

theorem mem_hashInsert {kv : UUID × AvatarData} {h : List (UUID × AvatarData)}
    {k : UUID} {v : AvatarData} (hmem : kv ∈ hashInsert h k v) :
    kv = (k, v) ∨ kv ∈ h := by
  induction h with
  | nil => simpa [hashInsert] using hmem
  | cons kv' rest ih =>
    simp only [hashInsert] at hmem
    split at hmem
    · rcases List.mem_cons.mp hmem with h1 | h1
      · exact Or.inl h1
      · exact Or.inr (List.mem_cons_of_mem _ h1)
    · rcases List.mem_cons.mp hmem with h1 | h1
      · exact Or.inr (h1 ▸ List.mem_cons_self _ _)
      · rcases ih h1 with h2 | h2
        · exact Or.inl h2
        · exact Or.inr (List.mem_cons_of_mem _ h2)

theorem keys_hashInsert_of_absent (h : List (UUID × AvatarData)) (k : UUID)
    (v : AvatarData) (habs : hashValue h k = none) :
    (hashInsert h k v).map Prod.fst = h.map Prod.fst ++ [k] := by
  induction h with
  | nil => simp [hashInsert]
  | cons kv rest ih =>
    rw [hashValue_cons] at habs
    split at habs
    · cases habs
    · next hne => simp [hashInsert, hne, ih habs]

theorem keys_hashInsert_of_present (h : List (UUID × AvatarData)) (k : UUID)
    (v w : AvatarData) (hv : hashValue h k = some w) :
    (hashInsert h k v).map Prod.fst = h.map Prod.fst := by
  induction h with
  | nil => simp [hashValue_nil] at hv
  | cons kv rest ih =>
    rw [hashValue_cons] at hv
    simp only [hashInsert]
    split
    · next heq => simp [heq]
    · next hne =>
      rw [if_neg hne] at hv
      simp [ih hv]

theorem keys_nodup_hashInsert (h : List (UUID × AvatarData)) (k : UUID)
    (v : AvatarData) (hnd : (h.map Prod.fst).Nodup) :
    ((hashInsert h k v).map Prod.fst).Nodup := by
  cases hv : hashValue h k with
  | some w => rw [keys_hashInsert_of_present h k v w hv]; exact hnd
  | none =>
    rw [keys_hashInsert_of_absent h k v hv]
    rw [List.nodup_append]
    refine ⟨hnd, List.nodup_singleton k, ?_⟩
    intro a ha hb
    rw [List.mem_singleton] at hb
    subst hb
    rcases List.mem_map.mp ha with ⟨kv, hkv, hfst⟩
    rw [hashValue, Option.map_eq_none', List.find?_eq_none] at hv
    exact absurd (by simpa using hfst) (by simpa using hv kv hkv)

theorem hashValue_remove_self (h : List (UUID × AvatarData)) (k : UUID) :
    hashValue (hashRemove h k) k = none := by
  rw [hashValue, Option.map_eq_none', List.find?_eq_none]
  intro kv hkv
  rw [hashRemove, List.mem_filter] at hkv
  simpa using hkv.2

theorem hashValue_remove_ne (h : List (UUID × AvatarData)) (k k' : UUID)
    (hne : k' ≠ k) : hashValue (hashRemove h k) k' = hashValue h k' := by
  induction h with
  | nil => rfl
  | cons kv rest ih =>
    by_cases hk : kv.1 = k
    · have : hashRemove (kv :: rest) k = hashRemove rest k := by
        simp [hashRemove, hk]
      rw [this, ih, hashValue_cons, if_neg (by rw [hk]; exact Ne.symm hne)]
    · have : hashRemove (kv :: rest) k = kv :: hashRemove rest k := by
        simp [hashRemove, hk]
      rw [this, hashValue_cons, hashValue_cons, ih]

theorem hashRemove_of_absent (h : List (UUID × AvatarData)) (k : UUID)
    (habs : hashValue h k = none) : hashRemove h k = h := by
  rw [hashValue, Option.map_eq_none', List.find?_eq_none] at habs
  rw [hashRemove, List.filter_eq_self]
  intro kv hkv
  simpa using habs kv hkv

theorem hashRemove_idem (h : List (UUID × AvatarData)) (k : UUID) :
    hashRemove (hashRemove h k) k = hashRemove h k :=
  hashRemove_of_absent _ k (hashValue_remove_self h k)

theorem keys_nodup_hashRemove (h : List (UUID × AvatarData)) (k : UUID)
    (hnd : (h.map Prod.fst).Nodup) : ((hashRemove h k).map Prod.fst).Nodup := by
  rw [hashRemove]
  exact hnd.sublist (List.Sublist.map Prod.fst (List.filter_sublist h))

theorem mem_of_hashValue_eq_some {h : List (UUID × AvatarData)} {k : UUID}
    {v : AvatarData} (hv : hashValue h k = some v) : (k, v) ∈ h := by
  induction h with
  | nil => simp [hashValue_nil] at hv
  | cons kv rest ih =>
    rw [hashValue_cons] at hv
    split at hv
    · next heq =>
      cases hv
      exact List.mem_cons.mpr (Or.inl (by simp [Prod.ext_iff, heq]))
    · exact List.mem_cons_of_mem _ (ih hv)

/-! ## Bulk-data handler unfolding lemmas -/

theorem processAvatarDataPacket_nil (node : Conn) (st : AvatarHashMap) :
    processAvatarDataPacket node [] st = st := by
  rw [processAvatarDataPacket]
  rfl

theorem processAvatarDataPacket_short (node : Conn) (bytes : List Nat)
    (st : AvatarHashMap) (hne : bytes ≠ []) (h : bytes.length < 16) :
    processAvatarDataPacket node bytes st = st := by
  rw [processAvatarDataPacket]
  rw [if_neg (by simpa using hne), dif_neg (by omega)]

theorem processAvatarDataPacket_parseFail (node : Conn) (bytes : List Nat)
    (st : AvatarHashMap) (h16 : 16 ≤ bytes.length)
    (hp : parseDataFromBuffer (bytes.drop 16) = none) :
    processAvatarDataPacket node bytes st = st := by
  have hne : bytes ≠ [] := by
    intro h
    subst h
    simp at h16
  rw [processAvatarDataPacket]
  rw [if_neg (by simpa using hne), dif_pos h16]
  split
  · next br bd hp2 => rw [hp] at hp2; cases hp2
  · rfl

theorem processAvatarDataPacket_step (node : Conn) (bytes : List Nat)
    (st : AvatarHashMap) (k : Nat) (body : List Nat) (h16 : 16 ≤ bytes.length)
    (hp : parseDataFromBuffer (bytes.drop 16) = some (k, body)) :
    processAvatarDataPacket node bytes st
      = processAvatarDataPacket node ((bytes.drop 16).drop k)
          (processOneSub node (uuidFromBytes (bytes.take 16)) body st) := by
  have hne : bytes ≠ [] := by
    intro h
    subst h
    simp at h16
  rw [processAvatarDataPacket]
  rw [if_neg (by simpa using hne), dif_pos h16]
  split
  · next br bd hp2 =>
    rw [hp] at hp2
    cases hp2
    rfl
  · next hp2 => rw [hp] at hp2; cases hp2

/-- A well-shaped bulk sub-record at the head of the payload: 16 id bytes,
one declared-length byte, and exactly that many body bytes; processing it
performs `processOneSub` and continues with the rest of the payload. -/
theorem processAvatarDataPacket_sub (node : Conn) (sidBytes body rest : List Nat)
    (n : Nat) (st : AvatarHashMap) (h16 : sidBytes.length = 16)
    (hbody : body.length = n) :
    processAvatarDataPacket node (sidBytes ++ n :: (body ++ rest)) st
      = processAvatarDataPacket node rest
          (processOneSub node (uuidFromBytes sidBytes) body st) := by
  have hlen : 16 ≤ (sidBytes ++ n :: (body ++ rest)).length := by
    simp [h16]
  have htake : (sidBytes ++ n :: (body ++ rest)).take 16 = sidBytes := by
    rw [← h16]
    exact List.take_left sidBytes _
  have hdrop : (sidBytes ++ n :: (body ++ rest)).drop 16 = n :: (body ++ rest) := by
    rw [← h16]
    exact List.drop_left sidBytes _
  have hparse : parseDataFromBuffer (n :: (body ++ rest)) = some (1 + n, body) := by
    simp only [parseDataFromBuffer]
    rw [if_pos (by simp [hbody])]
    rw [← hbody, List.take_left body rest]
  have hdrop2 : (n :: (body ++ rest)).drop (1 + n) = rest := by
    have : (n :: (body ++ rest)).drop (1 + n) = (body ++ rest).drop n := by
      rw [Nat.add_comm]
      simp [List.drop_succ_cons]
    rw [this, ← hbody, List.drop_left body rest]
  rw [processAvatarDataPacket_step node _ st (1 + n) body hlen (by rw [hdrop]; exact hparse)]
  rw [hdrop, htake, hdrop2]

/-- Filtered sub-record: when the embedded id equals the tracked previous
self, the step mutates nothing. -/
theorem processOneSub_self (node : Conn) (u : UUID) (body : List Nat)
    (st : AvatarHashMap) (h : u = st.lastOwnerSessionUUID) :
    processOneSub node u body st = st := by
  rw [processOneSub, if_pos h]

/-- Malformed head of the remaining payload: too short for the 16-byte id,
or fewer bytes than the declared sub-record body length. -/
def MalformedTail (bytes : List Nat) : Prop :=
  bytes.length < 16 ∨ parseDataFromBuffer (bytes.drop 16) = none

instance : DecidablePred MalformedTail := fun bytes =>
  inferInstanceAs (Decidable (bytes.length < 16 ∨ parseDataFromBuffer (bytes.drop 16) = none))

/-- A nonempty malformed remainder aborts processing, leaving the state
as it stands. -/
theorem processAvatarDataPacket_abort (node : Conn) (bytes : List Nat)
    (st : AvatarHashMap) (hne : bytes ≠ []) (hbad : MalformedTail bytes) :
    processAvatarDataPacket node bytes st = st := by
  rcases hbad with hbad | hbad
  · exact processAvatarDataPacket_short node bytes st hne hbad
  · by_cases h16 : 16 ≤ bytes.length
    · exact processAvatarDataPacket_parseFail node bytes st h16 hbad
    · exact processAvatarDataPacket_short node bytes st hne (by omega)

/-! ## Handler invocation machinery -/

/-- One protocol-handler invocation, as dispatched by the packet receiver
or the session provider. -/
inductive HandlerCall where
  | bulkData (node : Conn) (bytes : List Nat)
  | identity (node : Conn) (tuples : List IdentityTuple)
  | billboard (node : Conn) (bytes : List Nat)
  | kill (node : Conn) (bytes : List Nat)
  | uuidChanged (newUUID oldUUID : UUID)
  deriving DecidableEq, Repr

/-- Dispatch one handler invocation. -/
def applyCall (st : AvatarHashMap) : HandlerCall → AvatarHashMap
  | .bulkData node bytes => processAvatarDataPacket node bytes st
  | .identity node tuples => processAvatarIdentityPacket node tuples st
  | .billboard node bytes => processAvatarBillboardPacket node bytes st
  | .kill node bytes => processKillAvatar node bytes st
  | .uuidChanged newUUID oldUUID => sessionUUIDChanged newUUID oldUUID st

/-- Run a sequence of handler invocations. -/
def runCalls (st : AvatarHashMap) (calls : List HandlerCall) : AvatarHashMap :=
  calls.foldl applyCall st

/-- Registry invariant: at most one record per session id. -/
def KeysNodup (st : AvatarHashMap) : Prop :=
  (st.avatarHash.map Prod.fst).Nodup

/-- Registry invariant: every record's `sessionUUID` field equals the key
under which the record is stored. -/
def KeyInv (st : AvatarHashMap) : Prop :=
  ∀ kv ∈ st.avatarHash, kv.2.sessionUUID = kv.1

/-! ## Identity handler normal form -/

/-- The record produced by the identity handler's four difference-gated
setters: all four mutable fields take the tuple's values. -/
def identityMerge (t : IdentityTuple) (a : AvatarData) : AvatarData :=
  { a with
      faceModelURL := t.faceModelURL
      skeletonModelURL := t.skeletonModelURL
      attachmentData := t.attachmentData
      displayName := t.displayName }

/-- The setter invocations the identity handler performs for one tuple
against a record's stored values. -/
def identityEvents (t : IdentityTuple) (a : AvatarData) : List WriteEvent :=
  (if a.faceModelURL ≠ t.faceModelURL then
    [WriteEvent.setFaceModelURL t.sessionUUID t.faceModelURL] else [])
  ++ (if a.skeletonModelURL ≠ t.skeletonModelURL then
    [WriteEvent.setSkeletonModelURL t.sessionUUID t.skeletonModelURL] else [])
  ++ (if a.attachmentData ≠ t.attachmentData then
    [WriteEvent.setAttachmentData t.sessionUUID t.attachmentData] else [])
  ++ (if a.displayName ≠ t.displayName then
    [WriteEvent.setDisplayName t.sessionUUID t.displayName] else [])

theorem applyIdentityTuple_eq (node : Conn) (t : IdentityTuple)
    (st : AvatarHashMap) :
    applyIdentityTuple node t st =
      { (createIfAbsent t.sessionUUID node st).2 with
          avatarHash :=
            hashInsert (createIfAbsent t.sessionUUID node st).2.avatarHash
              t.sessionUUID (identityMerge t (createIfAbsent t.sessionUUID node st).1)
          writeLog := (createIfAbsent t.sessionUUID node st).2.writeLog
            ++ identityEvents t (createIfAbsent t.sessionUUID node st).1 } := by
  simp only [applyIdentityTuple, identityMerge, identityEvents]
  generalize (createIfAbsent t.sessionUUID node st) = p
  obtain ⟨a0, st1⟩ := p
  by_cases h1 : a0.faceModelURL = t.faceModelURL <;>
    by_cases h2 : a0.skeletonModelURL = t.skeletonModelURL <;>
      by_cases h3 : a0.attachmentData = t.attachmentData <;>
        by_cases h4 : a0.displayName = t.displayName <;>
          simp [h1, h2, h3, h4] <;>
            cases a0 <;>
              simp_all [AvatarData.mk.injEq]

/-! ## Invariant preservation -/

theorem KeysNodup_addAvatar (sid : UUID) (node : Conn) (st : AvatarHashMap)
    (h : KeysNodup st) : KeysNodup (addAvatar sid node st).2 :=
  keys_nodup_hashInsert st.avatarHash sid _ h

theorem KeyInv_addAvatar (sid : UUID) (node : Conn) (st : AvatarHashMap)
    (h : KeyInv st) : KeyInv (addAvatar sid node st).2 := by
  intro kv hkv
  rcases mem_hashInsert hkv with h1 | h1
  · subst h1; rfl
  · exact h kv h1

theorem addAvatar_fst_sessionUUID (sid : UUID) (node : Conn)
    (st : AvatarHashMap) : (addAvatar sid node st).1.sessionUUID = sid := rfl

theorem KeysNodup_createIfAbsent (sid : UUID) (node : Conn) (st : AvatarHashMap)
    (h : KeysNodup st) : KeysNodup (createIfAbsent sid node st).2 := by
  rw [createIfAbsent]
  cases hv : hashValue st.avatarHash sid with
  | some a => exact h
  | none => exact KeysNodup_addAvatar sid node st h

theorem KeyInv_createIfAbsent (sid : UUID) (node : Conn) (st : AvatarHashMap)
    (h : KeyInv st) : KeyInv (createIfAbsent sid node st).2 := by
  rw [createIfAbsent]
  cases hv : hashValue st.avatarHash sid with
  | some a => exact h
  | none => exact KeyInv_addAvatar sid node st h

theorem createIfAbsent_fst_sessionUUID (sid : UUID) (node : Conn)
    (st : AvatarHashMap) (h : KeyInv st) :
    (createIfAbsent sid node st).1.sessionUUID = sid := by
  rw [createIfAbsent]
  cases hv : hashValue st.avatarHash sid with
  | some a => exact h (sid, a) (mem_of_hashValue_eq_some hv)
  | none => rfl

theorem KeysNodup_processOneSub (node : Conn) (u : UUID) (body : List Nat)
    (st : AvatarHashMap) (h : KeysNodup st) :
    KeysNodup (processOneSub node u body st) := by
  rw [processOneSub]
  split
  · exact h
  · exact keys_nodup_hashInsert _ u _ (KeysNodup_createIfAbsent u node st h)

theorem KeyInv_processOneSub (node : Conn) (u : UUID) (body : List Nat)
    (st : AvatarHashMap) (h : KeyInv st) :
    KeyInv (processOneSub node u body st) := by
  rw [processOneSub]
  split
  · exact h
  · intro kv hkv
    rcases mem_hashInsert hkv with h1 | h1
    · subst h1
      exact createIfAbsent_fst_sessionUUID u node st h
    · exact KeyInv_createIfAbsent u node st h kv h1

theorem identityMerge_sessionUUID (t : IdentityTuple) (a : AvatarData) :
    (identityMerge t a).sessionUUID = a.sessionUUID := rfl

theorem KeysNodup_applyIdentityTuple (node : Conn) (t : IdentityTuple)
    (st : AvatarHashMap) (h : KeysNodup st) :
    KeysNodup (applyIdentityTuple node t st) := by
  rw [applyIdentityTuple_eq]
  exact keys_nodup_hashInsert _ _ _ (KeysNodup_createIfAbsent t.sessionUUID node st h)

theorem KeyInv_applyIdentityTuple (node : Conn) (t : IdentityTuple)
    (st : AvatarHashMap) (h : KeyInv st) :
    KeyInv (applyIdentityTuple node t st) := by
  rw [applyIdentityTuple_eq]
  intro kv hkv
  rcases mem_hashInsert hkv with h1 | h1
  · subst h1
    rw [identityMerge_sessionUUID]
    exact createIfAbsent_fst_sessionUUID t.sessionUUID node st h
  · exact KeyInv_createIfAbsent t.sessionUUID node st h kv h1

theorem KeysNodup_processAvatarIdentityPacket (node : Conn)
    (tuples : List IdentityTuple) (st : AvatarHashMap) (h : KeysNodup st) :
    KeysNodup (processAvatarIdentityPacket node tuples st) := by
  induction tuples generalizing st with
  | nil => exact h
  | cons t ts ih => exact ih _ (KeysNodup_applyIdentityTuple node t st h)

theorem KeyInv_processAvatarIdentityPacket (node : Conn)
    (tuples : List IdentityTuple) (st : AvatarHashMap) (h : KeyInv st) :
    KeyInv (processAvatarIdentityPacket node tuples st) := by
  induction tuples generalizing st with
  | nil => exact h
  | cons t ts ih => exact ih _ (KeyInv_applyIdentityTuple node t st h)

theorem KeysNodup_processAvatarBillboardPacket (node : Conn) (bytes : List Nat)
    (st : AvatarHashMap) (h : KeysNodup st) :
    KeysNodup (processAvatarBillboardPacket node bytes st) := by
  rw [processAvatarBillboardPacket]
  split
  · exact keys_nodup_hashInsert _ _ _
      (KeysNodup_createIfAbsent (uuidFromBytes (bytes.take 16)) node st h)
  · exact KeysNodup_createIfAbsent (uuidFromBytes (bytes.take 16)) node st h

theorem KeyInv_processAvatarBillboardPacket (node : Conn) (bytes : List Nat)
    (st : AvatarHashMap) (h : KeyInv st) :
    KeyInv (processAvatarBillboardPacket node bytes st) := by
  rw [processAvatarBillboardPacket]
  split
  · intro kv hkv
    rcases mem_hashInsert hkv with h1 | h1
    · subst h1
      exact createIfAbsent_fst_sessionUUID (uuidFromBytes (bytes.take 16)) node st h
    · exact KeyInv_createIfAbsent (uuidFromBytes (bytes.take 16)) node st h kv h1
  · exact KeyInv_createIfAbsent (uuidFromBytes (bytes.take 16)) node st h

theorem KeysNodup_removeAvatar (sid : UUID) (st : AvatarHashMap)
    (h : KeysNodup st) : KeysNodup (removeAvatar sid st) :=
  keys_nodup_hashRemove st.avatarHash sid h

theorem KeyInv_removeAvatar (sid : UUID) (st : AvatarHashMap)
    (h : KeyInv st) : KeyInv (removeAvatar sid st) := by
  intro kv hkv
  rw [removeAvatar] at hkv
  simp only [hashRemove, List.mem_filter] at hkv
  exact h kv hkv.1

theorem processAvatarDataPacket_preserves (P : AvatarHashMap → Prop)
    (hstep : ∀ (node : Conn) (u : UUID) (body : List Nat) (st : AvatarHashMap),
      P st → P (processOneSub node u body st))
    (node : Conn) :
    ∀ (bytes : List Nat) (st : AvatarHashMap), P st →
      P (processAvatarDataPacket node bytes st) := by
  have main : ∀ (N : Nat) (bytes : List Nat), bytes.length ≤ N →
      ∀ st, P st → P (processAvatarDataPacket node bytes st) := by
    intro N
    induction N with
    | zero =>
      intro bytes hlen st hP
      have hb : bytes = [] := List.length_eq_zero.mp (Nat.le_zero.mp hlen)
      subst hb
      rw [processAvatarDataPacket_nil]
      exact hP
    | succ N ih =>
      intro bytes hlen st hP
      by_cases hne : bytes = []
      · subst hne
        rw [processAvatarDataPacket_nil]
        exact hP
      · by_cases h16 : 16 ≤ bytes.length
        · cases hp : parseDataFromBuffer (bytes.drop 16) with
          | none =>
            rw [processAvatarDataPacket_parseFail node bytes st h16 hp]
            exact hP
          | some p =>
            obtain ⟨k, body⟩ := p
            rw [processAvatarDataPacket_step node bytes st k body h16 hp]
            apply ih
            · have hk : 0 < k := parseDataFromBuffer_pos hp
              simp only [List.length_drop]
              omega
            · exact hstep node _ body st hP
        · rw [processAvatarDataPacket_short node bytes st hne (by omega)]
          exact hP
  intro bytes st hP
  exact main bytes.length bytes le_rfl st hP

theorem KeysNodup_applyCall (st : AvatarHashMap) (call : HandlerCall)
    (h : KeysNodup st) : KeysNodup (applyCall st call) := by
  cases call with
  | bulkData node bytes =>
    exact processAvatarDataPacket_preserves KeysNodup KeysNodup_processOneSub
      node bytes st h
  | identity node tuples => exact KeysNodup_processAvatarIdentityPacket node tuples st h
  | billboard node bytes => exact KeysNodup_processAvatarBillboardPacket node bytes st h
  | kill node bytes => exact KeysNodup_removeAvatar _ st h
  | uuidChanged newUUID oldUUID => exact h

theorem KeyInv_applyCall (st : AvatarHashMap) (call : HandlerCall)
    (h : KeyInv st) : KeyInv (applyCall st call) := by
  cases call with
  | bulkData node bytes =>
    exact processAvatarDataPacket_preserves KeyInv KeyInv_processOneSub
      node bytes st h
  | identity node tuples => exact KeyInv_processAvatarIdentityPacket node tuples st h
  | billboard node bytes => exact KeyInv_processAvatarBillboardPacket node bytes st h
  | kill node bytes => exact KeyInv_removeAvatar _ st h
  | uuidChanged newUUID oldUUID => exact h

theorem KeysNodup_runCalls (calls : List HandlerCall) (st : AvatarHashMap)
    (h : KeysNodup st) : KeysNodup (runCalls st calls) := by
  induction calls generalizing st with
  | nil => exact h
  | cons c cs ih => exact ih _ (KeysNodup_applyCall st c h)

theorem KeyInv_runCalls (calls : List HandlerCall) (st : AvatarHashMap)
    (h : KeyInv st) : KeyInv (runCalls st calls) := by
  induction calls generalizing st with
  | nil => exact h
  | cons c cs ih => exact ih _ (KeyInv_applyCall st c h)

theorem KeysNodup_initState : KeysNodup initState := by
  simp [KeysNodup, initState]

theorem KeyInv_initState : KeyInv initState := by
  intro kv hkv
  simp [initState] at hkv

/-! ## Sample data for witnesses -/

def sampleAvatar : AvatarData :=
  { newSharedAvatar with sessionUUID := 5, owningAvatarMixer := some 7 }

def sampleState : AvatarHashMap :=
  { avatarHash := [(5, sampleAvatar)], lastOwnerSessionUUID := 0, writeLog := [] }

/-! ## Claim theorems -/

/-- **C1**: along every sequence of protocol-handler invocations the
registry holds at most one record per session id, and the creation path
(lookup then `addAvatar` only if absent) returns an existing record
unchanged, inserting nothing. -/
theorem claim1_registry_uniqueness (calls : List HandlerCall) :
    KeysNodup (runCalls initState calls) ∧
    ∀ (st : AvatarHashMap) (sid : UUID) (node : Conn) (a : AvatarData),
      hashValue st.avatarHash sid = some a →
      createIfAbsent sid node st = (a, st) := by
  constructor
  · exact KeysNodup_runCalls calls initState KeysNodup_initState
  · intro st sid node a ha
    rw [createIfAbsent, ha]

theorem claim1_registry_uniqueness_witness :
    hashValue sampleState.avatarHash 5 = some sampleAvatar ∧
    createIfAbsent 5 7 sampleState = (sampleAvatar, sampleState) :=
  ⟨by decide,
   (claim1_registry_uniqueness []).2 sampleState 5 7 sampleAvatar (by decide)⟩

/-- **C4**: removal deletes the record if present and is a silent no-op if
absent; removing twice, directly or via a removal packet, never faults,
leaves the registry without that id, and leaves every other record
unchanged. -/
theorem claim4_removal_idempotence (st : AvatarHashMap) (sid : UUID)
    (node : Conn) (bytes : List Nat) :
    hashValue (removeAvatar sid st).avatarHash sid = none ∧
    (∀ k, k ≠ sid →
      hashValue (removeAvatar sid st).avatarHash k = hashValue st.avatarHash k) ∧
    removeAvatar sid (removeAvatar sid st) = removeAvatar sid st ∧
    (hashValue st.avatarHash sid = none → removeAvatar sid st = st) ∧
    processKillAvatar node bytes st = removeAvatar (uuidFromBytes (bytes.take 16)) st := by
  refine ⟨hashValue_remove_self st.avatarHash sid, ?_, ?_, ?_, rfl⟩
  · intro k hk
    exact hashValue_remove_ne st.avatarHash sid k hk
  · simp [removeAvatar, hashRemove_idem]
  · intro habs
    simp [removeAvatar, hashRemove_of_absent st.avatarHash sid habs]

theorem claim4_removal_idempotence_witness :
    hashValue (removeAvatar 5 sampleState).avatarHash 5 = none ∧
    (9 : UUID) ≠ 5 ∧
    hashValue (removeAvatar 5 sampleState).avatarHash 9
      = hashValue sampleState.avatarHash 9 ∧
    removeAvatar 5 (removeAvatar 5 sampleState) = removeAvatar 5 sampleState ∧
    hashValue sampleState.avatarHash 9 = none ∧
    removeAvatar 9 sampleState = sampleState ∧
    processKillAvatar 7 [] sampleState = removeAvatar (uuidFromBytes ([].take 16)) sampleState := by
  refine ⟨(claim4_removal_idempotence sampleState 5 7 []).1,
    by decide,
    (claim4_removal_idempotence sampleState 5 7 []).2.1 9 (by decide),
    (claim4_removal_idempotence sampleState 5 7 []).2.2.1,
    by decide,
    (claim4_removal_idempotence sampleState 9 7 []).2.2.2.1 (by decide),
    (claim4_removal_idempotence sampleState 5 7 []).2.2.2.2⟩

/-- **C8**: a session-identity change stores the old identifier in the
single previous-self slot, overwriting any earlier value; after two
successive changes only the second old identifier is filtered by the
bulk-data echo filter, and the first one is processed like a peer again. -/
theorem claim8_single_slot_overwrite (st : AvatarHashMap) (n1 o1 n2 o2 : UUID)
    (node : Conn) (body : List Nat) :
    (sessionUUIDChanged n1 o1 st).lastOwnerSessionUUID = o1 ∧
    sessionUUIDChanged n2 o2 (sessionUUIDChanged n1 o1 st)
      = { st with lastOwnerSessionUUID := o2 } ∧
    (∀ body2, processOneSub node o2 body2
        (sessionUUIDChanged n2 o2 (sessionUUIDChanged n1 o1 st))
      = sessionUUIDChanged n2 o2 (sessionUUIDChanged n1 o1 st)) ∧
    (o1 ≠ o2 →
      ∃ a, hashValue (processOneSub node o1 body
          (sessionUUIDChanged n2 o2 (sessionUUIDChanged n1 o1 st))).avatarHash o1
        = some a ∧ a.bulkPayload = body) := by
  refine ⟨rfl, rfl, ?_, ?_⟩
  · intro body2
    exact processOneSub_self node o2 body2 _ rfl
  · intro hne
    rw [processOneSub]
    rw [if_neg (by simpa using hne)]
    exact ⟨_, hashValue_insert_self _ _ _, rfl⟩

theorem claim8_single_slot_overwrite_witness :
    (sessionUUIDChanged 10 11 initState).lastOwnerSessionUUID = 11 ∧
    sessionUUIDChanged 12 13 (sessionUUIDChanged 10 11 initState)
      = { initState with lastOwnerSessionUUID := 13 } ∧
    processOneSub 7 13 [4] (sessionUUIDChanged 12 13 (sessionUUIDChanged 10 11 initState))
      = sessionUUIDChanged 12 13 (sessionUUIDChanged 10 11 initState) ∧
    (11 : UUID) ≠ 13 ∧
    ∃ a, hashValue (processOneSub 7 11 [3]
        (sessionUUIDChanged 12 13 (sessionUUIDChanged 10 11 initState))).avatarHash 11
      = some a ∧ a.bulkPayload = [3] :=
  ⟨(claim8_single_slot_overwrite initState 10 11 12 13 7 [3]).1,
   (claim8_single_slot_overwrite initState 10 11 12 13 7 [3]).2.1,
   (claim8_single_slot_overwrite initState 10 11 12 13 7 [3]).2.2.1 [4],
   by decide,
   (claim8_single_slot_overwrite initState 10 11 12 13 7 [3]).2.2.2 (by decide)⟩

/-- **C10**: in every state reachable from the empty registry, each stored
record's `sessionUUID` field equals the key it is stored under, and no
handler invocation ever rewrites that field of an existing record. -/
theorem claim10_session_id_is_key (calls : List HandlerCall) :
    (∀ (k : UUID) (a : AvatarData),
      hashValue (runCalls initState calls).avatarHash k = some a →
      a.sessionUUID = k) ∧
    ∀ (st : AvatarHashMap) (call : HandlerCall) (k : UUID) (a a' : AvatarData),
      KeyInv st →
      hashValue st.avatarHash k = some a →
      hashValue (applyCall st call).avatarHash k = some a' →
      a'.sessionUUID = a.sessionUUID := by
  constructor
  · intro k a ha
    exact KeyInv_runCalls calls initState KeyInv_initState (k, a)
      (mem_of_hashValue_eq_some ha)
  · intro st call k a a' hinv ha ha'
    have h1 : a.sessionUUID = k := hinv (k, a) (mem_of_hashValue_eq_some ha)
    have h2 : a'.sessionUUID = k :=
      KeyInv_applyCall st call hinv (k, a') (mem_of_hashValue_eq_some ha')
    rw [h1, h2]

theorem claim10_session_id_is_key_witness :
    hashValue (runCalls initState [HandlerCall.billboard 7 []]).avatarHash 0
      = some { newSharedAvatar with owningAvatarMixer := some 7 } ∧
    ({ newSharedAvatar with owningAvatarMixer := some 7 } : AvatarData).sessionUUID = 0 ∧
    KeyInv sampleState ∧
    hashValue sampleState.avatarHash 5 = some sampleAvatar ∧
    hashValue (applyCall sampleState (HandlerCall.uuidChanged 1 2)).avatarHash 5
      = some sampleAvatar ∧
    sampleAvatar.sessionUUID = sampleAvatar.sessionUUID := by
  have hinv : KeyInv sampleState := by
    intro kv hkv
    simp only [sampleState, List.mem_singleton] at hkv
    subst hkv
    decide
  refine ⟨by decide,
    (claim10_session_id_is_key [HandlerCall.billboard 7 []]).1 0 _ (by decide),
    hinv, by decide, by decide,
    (claim10_session_id_is_key []).2 sampleState (HandlerCall.uuidChanged 1 2)
      5 sampleAvatar sampleAvatar hinv (by decide) (by decide)⟩

/-- **C2**: a bulk sub-record whose embedded session id equals the tracked
previous self identifier mutates no record (the state is passed on
unchanged), while the cursor advances past the sub-record's full byte
length, so processing continues at the next sub-record exactly as if the
packet had started there. -/
theorem claim2_echo_filter_consumes_bytes (st : AvatarHashMap) (node : Conn)
    (sidBytes body rest : List Nat) (n : Nat)
    (h16 : sidBytes.length = 16) (hbody : body.length = n)
    (hself : uuidFromBytes sidBytes = st.lastOwnerSessionUUID) :
    processAvatarDataPacket node (sidBytes ++ n :: (body ++ rest)) st
      = processAvatarDataPacket node rest st := by
  rw [processAvatarDataPacket_sub node sidBytes body rest n st h16 hbody,
    processOneSub_self node _ body st hself]

theorem claim2_echo_filter_consumes_bytes_witness :
    (List.replicate 15 0 ++ [5] : List Nat).length = 16 ∧
    ([7] : List Nat).length = 1 ∧
    uuidFromBytes (List.replicate 15 0 ++ [5])
      = ({ initState with lastOwnerSessionUUID := 5 } : AvatarHashMap).lastOwnerSessionUUID ∧
    processAvatarDataPacket 7
        ((List.replicate 15 0 ++ [5]) ++ 1 :: ([7] ++ ((List.replicate 15 0 ++ [9]) ++ 1 :: ([3] ++ []))))
        { initState with lastOwnerSessionUUID := 5 }
      = processAvatarDataPacket 7 ((List.replicate 15 0 ++ [9]) ++ 1 :: ([3] ++ []))
          { initState with lastOwnerSessionUUID := 5 } :=
  ⟨by decide, by decide, by decide,
   claim2_echo_filter_consumes_bytes { initState with lastOwnerSessionUUID := 5 } 7
     (List.replicate 15 0 ++ [5]) [7]
     ((List.replicate 15 0 ++ [9]) ++ 1 :: ([3] ++ [])) 1
     (by decide) (by decide) (by decide)⟩

/-- **C7**: a bulk packet whose trailing data is malformed (fewer bytes
than the next sub-record needs) is aborted at the malformed point without
faulting, and the mutation applied by the earlier well-formed sub-record
of the same packet persists (no rollback). -/
theorem claim7_malformed_tail_aborts (st st' : AvatarHashMap) (node : Conn)
    (sidBytes body rest : List Nat) (n : Nat)
    (h16 : sidBytes.length = 16) (hbody : body.length = n)
    (hne : rest ≠ []) (hbad : MalformedTail rest) :
    processAvatarDataPacket node (sidBytes ++ n :: (body ++ rest)) st
      = processOneSub node (uuidFromBytes sidBytes) body st ∧
    processAvatarDataPacket node rest st' = st' := by
  constructor
  · rw [processAvatarDataPacket_sub node sidBytes body rest n st h16 hbody]
    exact processAvatarDataPacket_abort node rest _ hne hbad
  · exact processAvatarDataPacket_abort node rest st' hne hbad

theorem claim7_malformed_tail_aborts_witness :
    (List.replicate 15 0 ++ [9] : List Nat).length = 16 ∧
    ([3] : List Nat).length = 1 ∧
    ([4] : List Nat) ≠ [] ∧
    MalformedTail [4] ∧
    processAvatarDataPacket 7 ((List.replicate 15 0 ++ [9]) ++ 1 :: ([3] ++ [4])) sampleState
      = processOneSub 7 (uuidFromBytes (List.replicate 15 0 ++ [9])) [3] sampleState ∧
    processAvatarDataPacket 7 [4] sampleState = sampleState :=
  ⟨by decide, by decide, by decide, by decide,
   (claim7_malformed_tail_aborts sampleState sampleState 7
     (List.replicate 15 0 ++ [9]) [3] [4] 1 (by decide) (by decide) (by decide)
     (by decide)).1,
   (claim7_malformed_tail_aborts sampleState sampleState 7
     (List.replicate 15 0 ++ [9]) [3] [4] 1 (by decide) (by decide) (by decide)
     (by decide)).2⟩

/-- For a nonnegative rational `d`, the comparison `sqrt d < r` over the
reals is exactly the square-root-free test the embedding uses. -/
theorem sqrt_lt_iff_sq_lt (d r : ℚ) (hd : 0 ≤ d) :
    Real.sqrt (d : ℝ) < (r : ℝ) ↔ 0 < r ∧ d < r * r := by
  by_cases hr : 0 < r
  · have hr' : (0 : ℝ) < (r : ℝ) := by exact_mod_cast hr
    rw [Real.sqrt_lt' hr']
    constructor
    · intro h
      refine ⟨hr, ?_⟩
      have : (d : ℝ) < (r : ℝ) * (r : ℝ) := by rw [← sq]; exact h
      exact_mod_cast this
    · intro h
      rw [sq]
      exact_mod_cast h.2
  · constructor
    · intro h
      exfalso
      have h0 : (0 : ℝ) ≤ Real.sqrt (d : ℝ) := Real.sqrt_nonneg _
      have hr' : (r : ℝ) ≤ 0 := by exact_mod_cast not_lt.mp hr
      linarith
    · intro h
      exact absurd h.1 hr

theorem distSq_nonneg (a b : Vec3) : 0 ≤ distSq a b := by
  rw [distSq]
  positivity

/-- **C3**: `isAvatarInRange(P, r)` returns true exactly when some record's
position lies at Euclidean distance strictly less than `r` from `P`; a
record at distance exactly `r` does not count.  The query is a pure
function of the state: it performs no mutation by construction. -/
theorem claim3_range_query (st : AvatarHashMap) (P : Vec3) (r : ℚ) :
    isAvatarInRange st P r = true ↔
      ∃ kv ∈ st.avatarHash,
        Real.sqrt ((distSq kv.2.position P : ℚ) : ℝ) < (r : ℝ) := by
  rw [isAvatarInRange, List.any_eq_true]
  constructor
  · rintro ⟨kv, hkv, hdec⟩
    rw [decide_eq_true_eq] at hdec
    exact ⟨kv, hkv,
      (sqrt_lt_iff_sq_lt (distSq kv.2.position P) r
        (distSq_nonneg kv.2.position P)).mpr hdec⟩
  · rintro ⟨kv, hkv, hlt⟩
    refine ⟨kv, hkv, ?_⟩
    rw [decide_eq_true_eq]
    exact (sqrt_lt_iff_sq_lt (distSq kv.2.position P) r
      (distSq_nonneg kv.2.position P)).mp hlt

theorem createIfAbsent_of_some {st : AvatarHashMap} {sid : UUID} {a : AvatarData}
    (node : Conn) (h : hashValue st.avatarHash sid = some a) :
    createIfAbsent sid node st = (a, st) := by
  rw [createIfAbsent, h]

theorem createIfAbsent_of_none {st : AvatarHashMap} {sid : UUID}
    (node : Conn) (h : hashValue st.avatarHash sid = none) :
    createIfAbsent sid node st = addAvatar sid node st := by
  rw [createIfAbsent, h]

/-- **C5**: an identity tuple applied to an existing record writes each of
the four mutable fields only when the incoming value differs from the
stored one: an all-equal tuple leaves the state entirely unchanged and
performs no setter invocation; a tuple differing in exactly one field
rewrites only that field of that record and performs exactly that one
setter invocation; records under other keys are never touched. -/
theorem claim5_identity_difference_gated (st : AvatarHashMap) (node : Conn)
    (t : IdentityTuple) (a : AvatarData)
    (ha : hashValue st.avatarHash t.sessionUUID = some a) :
    (a.faceModelURL = t.faceModelURL → a.skeletonModelURL = t.skeletonModelURL →
      a.attachmentData = t.attachmentData → a.displayName = t.displayName →
      processAvatarIdentityPacket node [t] st = st) ∧
    (a.faceModelURL ≠ t.faceModelURL → a.skeletonModelURL = t.skeletonModelURL →
      a.attachmentData = t.attachmentData → a.displayName = t.displayName →
      processAvatarIdentityPacket node [t] st
        = { st with
              avatarHash := hashInsert st.avatarHash t.sessionUUID
                { a with faceModelURL := t.faceModelURL }
              writeLog := st.writeLog
                ++ [WriteEvent.setFaceModelURL t.sessionUUID t.faceModelURL] }) ∧
    (a.faceModelURL = t.faceModelURL → a.skeletonModelURL ≠ t.skeletonModelURL →
      a.attachmentData = t.attachmentData → a.displayName = t.displayName →
      processAvatarIdentityPacket node [t] st
        = { st with
              avatarHash := hashInsert st.avatarHash t.sessionUUID
                { a with skeletonModelURL := t.skeletonModelURL }
              writeLog := st.writeLog
                ++ [WriteEvent.setSkeletonModelURL t.sessionUUID t.skeletonModelURL] }) ∧
    (a.faceModelURL = t.faceModelURL → a.skeletonModelURL = t.skeletonModelURL →
      a.attachmentData ≠ t.attachmentData → a.displayName = t.displayName →
      processAvatarIdentityPacket node [t] st
        = { st with
              avatarHash := hashInsert st.avatarHash t.sessionUUID
                { a with attachmentData := t.attachmentData }
              writeLog := st.writeLog
                ++ [WriteEvent.setAttachmentData t.sessionUUID t.attachmentData] }) ∧
    (a.faceModelURL = t.faceModelURL → a.skeletonModelURL = t.skeletonModelURL →
      a.attachmentData = t.attachmentData → a.displayName ≠ t.displayName →
      processAvatarIdentityPacket node [t] st
        = { st with
              avatarHash := hashInsert st.avatarHash t.sessionUUID
                { a with displayName := t.displayName }
              writeLog := st.writeLog
                ++ [WriteEvent.setDisplayName t.sessionUUID t.displayName] }) ∧
    (∀ k, k ≠ t.sessionUUID →
      hashValue (processAvatarIdentityPacket node [t] st).avatarHash k
        = hashValue st.avatarHash k) := by
  have hsingle : processAvatarIdentityPacket node [t] st
      = applyIdentityTuple node t st := rfl
  rw [hsingle, applyIdentityTuple_eq, createIfAbsent_of_some node ha]
  refine ⟨?_, ?_, ?_, ?_, ?_, ?_⟩
  · intro h1 h2 h3 h4
    have hmerge : identityMerge t a = a := by
      cases a
      simp_all [identityMerge]
    have hev : identityEvents t a = [] := by
      simp [identityEvents, h1, h2, h3, h4]
    rw [hmerge, hev, hashInsert_self_eq st.avatarHash t.sessionUUID a ha]
    simp
  · intro h1 h2 h3 h4
    have hmerge : identityMerge t a = { a with faceModelURL := t.faceModelURL } := by
      cases a
      simp_all [identityMerge]
    have hev : identityEvents t a
        = [WriteEvent.setFaceModelURL t.sessionUUID t.faceModelURL] := by
      simp [identityEvents, h1, h2, h3, h4]
    rw [hmerge, hev]
  · intro h1 h2 h3 h4
    have hmerge : identityMerge t a = { a with skeletonModelURL := t.skeletonModelURL } := by
      cases a
      simp_all [identityMerge]
    have hev : identityEvents t a
        = [WriteEvent.setSkeletonModelURL t.sessionUUID t.skeletonModelURL] := by
      simp [identityEvents, h1, h2, h3, h4]
    rw [hmerge, hev]
  · intro h1 h2 h3 h4
    have hmerge : identityMerge t a = { a with attachmentData := t.attachmentData } := by
      cases a
      simp_all [identityMerge]
    have hev : identityEvents t a
        = [WriteEvent.setAttachmentData t.sessionUUID t.attachmentData] := by
      simp [identityEvents, h1, h2, h3, h4]
    rw [hmerge, hev]
  · intro h1 h2 h3 h4
    have hmerge : identityMerge t a = { a with displayName := t.displayName } := by
      cases a
      simp_all [identityMerge]
    have hev : identityEvents t a
        = [WriteEvent.setDisplayName t.sessionUUID t.displayName] := by
      simp [identityEvents, h1, h2, h3, h4]
    rw [hmerge, hev]
  · intro k hk
    exact hashValue_insert_ne st.avatarHash t.sessionUUID k _ hk

def sampleTuple : IdentityTuple :=
  { sessionUUID := 5
    faceModelURL := ""
    skeletonModelURL := ""
    attachmentData := []
    displayName := "Bob" }

theorem claim5_identity_difference_gated_witness :
    hashValue sampleState.avatarHash sampleTuple.sessionUUID = some sampleAvatar ∧
    sampleAvatar.faceModelURL = sampleTuple.faceModelURL ∧
    sampleAvatar.skeletonModelURL = sampleTuple.skeletonModelURL ∧
    sampleAvatar.attachmentData = sampleTuple.attachmentData ∧
    sampleAvatar.displayName ≠ sampleTuple.displayName ∧
    processAvatarIdentityPacket 7 [sampleTuple] sampleState
      = { sampleState with
            avatarHash := hashInsert sampleState.avatarHash sampleTuple.sessionUUID
              { sampleAvatar with displayName := sampleTuple.displayName }
            writeLog := sampleState.writeLog
              ++ [WriteEvent.setDisplayName sampleTuple.sessionUUID sampleTuple.displayName] } ∧
    (9 : UUID) ≠ sampleTuple.sessionUUID ∧
    hashValue (processAvatarIdentityPacket 7 [sampleTuple] sampleState).avatarHash 9
      = hashValue sampleState.avatarHash 9 :=
  ⟨by decide, by decide, by decide, by decide, by decide,
   (claim5_identity_difference_gated sampleState 7 sampleTuple sampleAvatar
     (by decide)).2.2.2.2.1 (by decide) (by decide) (by decide) (by decide),
   by decide,
   (claim5_identity_difference_gated sampleState 7 sampleTuple sampleAvatar
     (by decide)).2.2.2.2.2 9 (by decide)⟩

/-- **C6**: the billboard handler takes the first 16 bytes as the session
id and all remaining bytes as the opaque blob, creates the record if
absent, and replaces the record's billboard only when the incoming blob
differs from the stored one (one setter invocation); no other field of
that record and no record under another key is changed. -/
theorem claim6_billboard_packet (st : AvatarHashMap) (node : Conn)
    (bytes : List Nat) :
    (∃ a', hashValue (processAvatarBillboardPacket node bytes st).avatarHash
        (uuidFromBytes (bytes.take 16)) = some a'
        ∧ a'.billboard = bytes.drop 16) ∧
    (∀ a, hashValue st.avatarHash (uuidFromBytes (bytes.take 16)) = some a →
      a.billboard = bytes.drop 16 →
      processAvatarBillboardPacket node bytes st = st) ∧
    (∀ a, hashValue st.avatarHash (uuidFromBytes (bytes.take 16)) = some a →
      a.billboard ≠ bytes.drop 16 →
      processAvatarBillboardPacket node bytes st
        = { st with
              avatarHash := hashInsert st.avatarHash (uuidFromBytes (bytes.take 16))
                { a with billboard := bytes.drop 16 }
              writeLog := st.writeLog ++ [WriteEvent.setBillboard
                (uuidFromBytes (bytes.take 16)) (bytes.drop 16)] }) ∧
    (hashValue st.avatarHash (uuidFromBytes (bytes.take 16)) = none →
      hashValue (processAvatarBillboardPacket node bytes st).avatarHash
          (uuidFromBytes (bytes.take 16))
        = some { newSharedAvatar with
                   sessionUUID := uuidFromBytes (bytes.take 16)
                   owningAvatarMixer := some node
                   billboard := bytes.drop 16 }) ∧
    (∀ k, k ≠ uuidFromBytes (bytes.take 16) →
      hashValue (processAvatarBillboardPacket node bytes st).avatarHash k
        = hashValue st.avatarHash k) := by
  cases hv : hashValue st.avatarHash (uuidFromBytes (bytes.take 16)) with
  | some a0 =>
    have hproc : processAvatarBillboardPacket node bytes st
        = if a0.billboard ≠ bytes.drop 16 then
            { st with
                avatarHash := hashInsert st.avatarHash (uuidFromBytes (bytes.take 16))
                  { a0 with billboard := bytes.drop 16 }
                writeLog := st.writeLog ++ [WriteEvent.setBillboard
                  (uuidFromBytes (bytes.take 16)) (bytes.drop 16)] }
          else st := by
      simp only [processAvatarBillboardPacket, createIfAbsent_of_some node hv]
    refine ⟨?_, ?_, ?_, ?_, ?_⟩
    · rw [hproc]
      by_cases hb : a0.billboard = bytes.drop 16
      · rw [if_neg (by simpa using hb)]
        exact ⟨a0, hv, hb⟩
      · rw [if_pos (by simpa using hb)]
        exact ⟨_, hashValue_insert_self _ _ _, rfl⟩
    · intro a ha hb
      rw [Option.some.injEq] at ha
      subst ha
      rw [hproc, if_neg (by simpa using hb)]
    · intro a ha hb
      rw [Option.some.injEq] at ha
      subst ha
      rw [hproc, if_pos (by simpa using hb)]
    · intro habs
      exact Option.noConfusion habs
    · intro k hk
      rw [hproc]
      by_cases hb : a0.billboard = bytes.drop 16
      · rw [if_neg (by simpa using hb)]
      · rw [if_pos (by simpa using hb)]
        exact hashValue_insert_ne st.avatarHash _ k _ hk
  | none =>
    have hfresh : (addAvatar (uuidFromBytes (bytes.take 16)) node st).1
        = { newSharedAvatar with
              sessionUUID := uuidFromBytes (bytes.take 16)
              owningAvatarMixer := some node } := rfl
    have hproc : processAvatarBillboardPacket node bytes st
        = if ({ newSharedAvatar with
                  sessionUUID := uuidFromBytes (bytes.take 16)
                  owningAvatarMixer := some node } : AvatarData).billboard
            ≠ bytes.drop 16 then
            { st with
                avatarHash := hashInsert
                  (hashInsert st.avatarHash (uuidFromBytes (bytes.take 16))
                    { newSharedAvatar with
                        sessionUUID := uuidFromBytes (bytes.take 16)
                        owningAvatarMixer := some node })
                  (uuidFromBytes (bytes.take 16))
                  { newSharedAvatar with
                      sessionUUID := uuidFromBytes (bytes.take 16)
                      owningAvatarMixer := some node
                      billboard := bytes.drop 16 }
                writeLog := st.writeLog ++ [WriteEvent.setBillboard
                  (uuidFromBytes (bytes.take 16)) (bytes.drop 16)] }
          else { st with
                   avatarHash := hashInsert st.avatarHash (uuidFromBytes (bytes.take 16))
                     { newSharedAvatar with
                         sessionUUID := uuidFromBytes (bytes.take 16)
                         owningAvatarMixer := some node } } := by
      simp only [processAvatarBillboardPacket, createIfAbsent_of_none node hv]
      rfl
    refine ⟨?_, ?_, ?_, ?_, ?_⟩
    · rw [hproc]
      by_cases hb : ([] : List Nat) = bytes.drop 16
      · rw [if_neg (by simpa [newSharedAvatar] using hb)]
        exact ⟨_, hashValue_insert_self _ _ _, hb⟩
      · rw [if_pos (by simpa [newSharedAvatar] using hb)]
        exact ⟨_, hashValue_insert_self _ _ _, rfl⟩
    · intro a ha hb
      exact Option.noConfusion ha
    · intro a ha hb
      exact Option.noConfusion ha
    · intro habs
      rw [hproc]
      by_cases hb : ([] : List Nat) = bytes.drop 16
      · rw [if_neg (by simpa [newSharedAvatar] using hb)]
        rw [hashValue_insert_self]
        rw [← hb]
        simp [newSharedAvatar]
      · rw [if_pos (by simpa [newSharedAvatar] using hb)]
        exact hashValue_insert_self _ _ _
    · intro k hk
      rw [hproc]
      by_cases hb : ([] : List Nat) = bytes.drop 16
      · rw [if_neg (by simpa [newSharedAvatar] using hb)]
        exact hashValue_insert_ne st.avatarHash _ k _ hk
      · rw [if_pos (by simpa [newSharedAvatar] using hb)]
        rw [hashValue_insert_ne _ _ k _ hk, hashValue_insert_ne st.avatarHash _ k _ hk]

theorem claim6_billboard_packet_witness :
    hashValue sampleState.avatarHash
        (uuidFromBytes (((List.replicate 15 0 ++ [5]) ++ [1, 2, 3]).take 16))
      = some sampleAvatar ∧
    sampleAvatar.billboard ≠ ((List.replicate 15 0 ++ [5]) ++ [1, 2, 3]).drop 16 ∧
    processAvatarBillboardPacket 7 ((List.replicate 15 0 ++ [5]) ++ [1, 2, 3]) sampleState
      = { sampleState with
            avatarHash := hashInsert sampleState.avatarHash
              (uuidFromBytes (((List.replicate 15 0 ++ [5]) ++ [1, 2, 3]).take 16))
              { sampleAvatar with
                  billboard := ((List.replicate 15 0 ++ [5]) ++ [1, 2, 3]).drop 16 }
            writeLog := sampleState.writeLog ++ [WriteEvent.setBillboard
              (uuidFromBytes (((List.replicate 15 0 ++ [5]) ++ [1, 2, 3]).take 16))
              (((List.replicate 15 0 ++ [5]) ++ [1, 2, 3]).drop 16)] } :=
  ⟨by decide, by decide,
   (claim6_billboard_packet sampleState 7
     ((List.replicate 15 0 ++ [5]) ++ [1, 2, 3])).2.2.1 sampleAvatar
     (by decide) (by decide)⟩

/-! ## The self-echo filter is consulted only by the bulk-data handler -/

theorem createIfAbsent_lastOwner (sid : UUID) (node : Conn) (st : AvatarHashMap)
    (lo : UUID) :
    createIfAbsent sid node { st with lastOwnerSessionUUID := lo }
      = ((createIfAbsent sid node st).1,
         { (createIfAbsent sid node st).2 with lastOwnerSessionUUID := lo }) := by
  cases hv : hashValue st.avatarHash sid with
  | some a =>
    have hv' : hashValue ({ st with lastOwnerSessionUUID := lo }).avatarHash sid
        = some a := hv
    rw [createIfAbsent_of_some node hv', createIfAbsent_of_some node hv]
  | none =>
    have hv' : hashValue ({ st with lastOwnerSessionUUID := lo }).avatarHash sid
        = none := hv
    rw [createIfAbsent_of_none node hv', createIfAbsent_of_none node hv]
    rfl

theorem createIfAbsent_hashValue_self (sid : UUID) (node : Conn)
    (st : AvatarHashMap) :
    hashValue (createIfAbsent sid node st).2.avatarHash sid
      = some (createIfAbsent sid node st).1 := by
  cases hv : hashValue st.avatarHash sid with
  | some a =>
    rw [createIfAbsent_of_some node hv]
    exact hv
  | none =>
    rw [createIfAbsent_of_none node hv]
    exact hashValue_insert_self _ _ _

theorem applyIdentityTuple_lastOwner (node : Conn) (t : IdentityTuple)
    (st : AvatarHashMap) (lo : UUID) :
    applyIdentityTuple node t { st with lastOwnerSessionUUID := lo }
      = { applyIdentityTuple node t st with lastOwnerSessionUUID := lo } := by
  rw [applyIdentityTuple_eq, applyIdentityTuple_eq, createIfAbsent_lastOwner]

theorem processAvatarIdentityPacket_lastOwner (node : Conn)
    (tuples : List IdentityTuple) (st : AvatarHashMap) (lo : UUID) :
    processAvatarIdentityPacket node tuples { st with lastOwnerSessionUUID := lo }
      = { processAvatarIdentityPacket node tuples st with lastOwnerSessionUUID := lo } := by
  induction tuples generalizing st with
  | nil => rfl
  | cons t ts ih =>
    have h1 : processAvatarIdentityPacket node (t :: ts)
        { st with lastOwnerSessionUUID := lo }
        = processAvatarIdentityPacket node ts
            (applyIdentityTuple node t { st with lastOwnerSessionUUID := lo }) := rfl
    have h2 : processAvatarIdentityPacket node (t :: ts) st
        = processAvatarIdentityPacket node ts (applyIdentityTuple node t st) := rfl
    rw [h1, h2, applyIdentityTuple_lastOwner]
    exact ih _

theorem processAvatarBillboardPacket_lastOwner (node : Conn) (bytes : List Nat)
    (st : AvatarHashMap) (lo : UUID) :
    processAvatarBillboardPacket node bytes { st with lastOwnerSessionUUID := lo }
      = { processAvatarBillboardPacket node bytes st with lastOwnerSessionUUID := lo } := by
  simp only [processAvatarBillboardPacket, createIfAbsent_lastOwner]
  by_cases hb : (createIfAbsent (uuidFromBytes (bytes.take 16)) node st).1.billboard
      = bytes.drop 16
  · rw [if_neg (by simpa using hb), if_neg (by simpa using hb)]
  · rw [if_pos (by simpa using hb), if_pos (by simpa using hb)]

theorem processKillAvatar_lastOwner (node : Conn) (bytes : List Nat)
    (st : AvatarHashMap) (lo : UUID) :
    processKillAvatar node bytes { st with lastOwnerSessionUUID := lo }
      = { processKillAvatar node bytes st with lastOwnerSessionUUID := lo } := rfl

theorem applyIdentityTuple_result_self (node : Conn) (t : IdentityTuple)
    (st : AvatarHashMap) :
    hashValue (applyIdentityTuple node t st).avatarHash t.sessionUUID
      = some (identityMerge t (createIfAbsent t.sessionUUID node st).1) := by
  rw [applyIdentityTuple_eq]
  exact hashValue_insert_self _ _ _

theorem processAvatarBillboardPacket_result_self (node : Conn) (bytes : List Nat)
    (st : AvatarHashMap) :
    ∃ a, hashValue (processAvatarBillboardPacket node bytes st).avatarHash
        (uuidFromBytes (bytes.take 16)) = some a ∧ a.billboard = bytes.drop 16 := by
  simp only [processAvatarBillboardPacket]
  by_cases hb : (createIfAbsent (uuidFromBytes (bytes.take 16)) node st).1.billboard
      = bytes.drop 16
  · rw [if_neg (by simpa using hb)]
    exact ⟨_, createIfAbsent_hashValue_self _ node st, hb⟩
  · rw [if_pos (by simpa using hb)]
    exact ⟨_, hashValue_insert_self _ _ _, rfl⟩

/-- **C9**: the previous-self echo filter is consulted only by the
bulk-data handler: the identity, billboard and kill handlers compute the
same registry regardless of the tracked previous-self value, and packets
keyed by the tracked previous self X are handled exactly like any peer's
(identity and billboard create X's record if absent and apply their
updates, kill deletes X's record). -/
theorem claim9_filter_only_bulk_data (st : AvatarHashMap) (node : Conn)
    (tuples : List IdentityTuple) (bytesB bytesK : List Nat) (lo : UUID)
    (t : IdentityTuple) :
    (processAvatarIdentityPacket node tuples { st with lastOwnerSessionUUID := lo }
      = { processAvatarIdentityPacket node tuples st with
            lastOwnerSessionUUID := lo }) ∧
    (processAvatarBillboardPacket node bytesB { st with lastOwnerSessionUUID := lo }
      = { processAvatarBillboardPacket node bytesB st with
            lastOwnerSessionUUID := lo }) ∧
    (processKillAvatar node bytesK { st with lastOwnerSessionUUID := lo }
      = { processKillAvatar node bytesK st with lastOwnerSessionUUID := lo }) ∧
    (t.sessionUUID = st.lastOwnerSessionUUID →
      ∃ a, hashValue (processAvatarIdentityPacket node [t] st).avatarHash
          t.sessionUUID = some a ∧
        a.faceModelURL = t.faceModelURL ∧ a.skeletonModelURL = t.skeletonModelURL ∧
        a.attachmentData = t.attachmentData ∧ a.displayName = t.displayName) ∧
    (uuidFromBytes (bytesB.take 16) = st.lastOwnerSessionUUID →
      ∃ a, hashValue (processAvatarBillboardPacket node bytesB st).avatarHash
          (uuidFromBytes (bytesB.take 16)) = some a ∧
        a.billboard = bytesB.drop 16) ∧
    (uuidFromBytes (bytesK.take 16) = st.lastOwnerSessionUUID →
      hashValue (processKillAvatar node bytesK st).avatarHash
        (uuidFromBytes (bytesK.take 16)) = none) := by
  refine ⟨processAvatarIdentityPacket_lastOwner node tuples st lo,
    processAvatarBillboardPacket_lastOwner node bytesB st lo,
    processKillAvatar_lastOwner node bytesK st lo, ?_, ?_, ?_⟩
  · intro _
    have hone : processAvatarIdentityPacket node [t] st
        = applyIdentityTuple node t st := rfl
    rw [hone, applyIdentityTuple_result_self]
    exact ⟨_, rfl, rfl, rfl, rfl, rfl⟩
  · intro _
    exact processAvatarBillboardPacket_result_self node bytesB st
  · intro _
    exact hashValue_remove_self _ _

theorem claim9_filter_only_bulk_data_witness :
    (processAvatarIdentityPacket 7 [sampleTuple]
        { sampleState with lastOwnerSessionUUID := 42 }
      = { processAvatarIdentityPacket 7 [sampleTuple] sampleState with
            lastOwnerSessionUUID := 42 }) ∧
    (processAvatarBillboardPacket 7 [] { sampleState with lastOwnerSessionUUID := 42 }
      = { processAvatarBillboardPacket 7 [] sampleState with
            lastOwnerSessionUUID := 42 }) ∧
    (processKillAvatar 7 [] { sampleState with lastOwnerSessionUUID := 42 }
      = { processKillAvatar 7 [] sampleState with lastOwnerSessionUUID := 42 }) ∧
    ({ sampleTuple with sessionUUID := 0 } : IdentityTuple).sessionUUID
      = sampleState.lastOwnerSessionUUID ∧
    (∃ a, hashValue (processAvatarIdentityPacket 7
          [{ sampleTuple with sessionUUID := 0 }] sampleState).avatarHash
        ({ sampleTuple with sessionUUID := 0 } : IdentityTuple).sessionUUID = some a ∧
      a.faceModelURL = ({ sampleTuple with sessionUUID := 0 } : IdentityTuple).faceModelURL ∧
      a.skeletonModelURL
        = ({ sampleTuple with sessionUUID := 0 } : IdentityTuple).skeletonModelURL ∧
      a.attachmentData = ({ sampleTuple with sessionUUID := 0 } : IdentityTuple).attachmentData ∧
      a.displayName = ({ sampleTuple with sessionUUID := 0 } : IdentityTuple).displayName) ∧
    uuidFromBytes (([] : List Nat).take 16) = sampleState.lastOwnerSessionUUID ∧
    (∃ a, hashValue (processAvatarBillboardPacket 7 [] sampleState).avatarHash
        (uuidFromBytes (([] : List Nat).take 16)) = some a ∧
      a.billboard = ([] : List Nat).drop 16) ∧
    hashValue (processKillAvatar 7 [] sampleState).avatarHash
      (uuidFromBytes (([] : List Nat).take 16)) = none :=
  ⟨(claim9_filter_only_bulk_data sampleState 7 [sampleTuple] [] [] 42
      { sampleTuple with sessionUUID := 0 }).1,
   (claim9_filter_only_bulk_data sampleState 7 [sampleTuple] [] [] 42
      { sampleTuple with sessionUUID := 0 }).2.1,
   (claim9_filter_only_bulk_data sampleState 7 [sampleTuple] [] [] 42
      { sampleTuple with sessionUUID := 0 }).2.2.1,
   by decide,
   (claim9_filter_only_bulk_data sampleState 7 [sampleTuple] [] [] 42
      { sampleTuple with sessionUUID := 0 }).2.2.2.1 (by decide),
   by decide,
   (claim9_filter_only_bulk_data sampleState 7 [sampleTuple] [] [] 42
      { sampleTuple with sessionUUID := 0 }).2.2.2.2.1 (by decide),
   (claim9_filter_only_bulk_data sampleState 7 [sampleTuple] [] [] 42
      { sampleTuple with sessionUUID := 0 }).2.2.2.2.2 (by decide)⟩
